import Mathlib

/-!
Verification of the Coinbase advanced-trade DCA script
(`dollar_cost_average.py`) against its natural-language specification.

The Python module is shallowly embedded below.  Floating-point numbers are
modelled as exact rationals (`ℚ`); Python's `round(x, n)` is modelled as
exact decimal round-half-to-even; `math.floor(math.log10 x)` is modelled by
Mathlib's exact `Int.log 10`.  Network traffic is modelled by an explicit
oracle `Oracle : NetRequest → Response`; every function that performs HTTP
calls also returns the list of requests it issued, in order, so that
statements about which calls happen (and how many) can be proved.
Library primitives that are not part of the repository (HMAC-SHA256,
`uuid.uuid4`, `time.time`) are passed in as parameters.
-/

namespace DCA

/-- `class Side(str, Enum)` from the source. -/
inductive Side where
  | BUY
  | SELL
deriving DecidableEq, Repr

/-- The string value of a `Side` enum member. -/
def Side.value : Side → String
  | .BUY => "BUY"
  | .SELL => "SELL"

/-- `class Pair(str, Enum)` from the source: the supported trading pairs. -/
inductive Pair where
  | BTC_USD
  | BTC_USDC
  | ETH_USD
  | ETH_USDC
deriving DecidableEq, Repr

/-- The string value of a `Pair` enum member, format `BASE-QUOTE`. -/
def Pair.value : Pair → String
  | .BTC_USD  => "BTC-USD"
  | .BTC_USDC => "BTC-USDC"
  | .ETH_USD  => "ETH-USD"
  | .ETH_USDC => "ETH-USDC"

/-- `class Resource(str, Enum)` from the source. -/
inductive Resource where
  | ACCOUNTS
  | ORDERS
  | PRODUCTS
deriving DecidableEq, Repr

/-- The string value of a `Resource` enum member. -/
def Resource.value : Resource → String
  | .ACCOUNTS => "accounts"
  | .ORDERS => "orders"
  | .PRODUCTS => "products"

/-- `class HTTPMethod(str, Enum)` from the source. -/
inductive HTTPMethod where
  | GET
  | POST
deriving DecidableEq, Repr

/-- The string value of an `HTTPMethod` enum member. -/
def HTTPMethod.value : HTTPMethod → String
  | .GET => "GET"
  | .POST => "POST"

/-- `CoinbaseApiCredentials` (a `TypedDict` in the source). -/
structure CoinbaseApiCredentials where
  key : String
  secret : String
deriving DecidableEq, Repr

/-- Class attribute `CoinbaseDCA.BASE_ENDPOINT`. -/
def BASE_ENDPOINT : String := "/api/v3/brokerage/"

/-- Class attribute `CoinbaseDCA.PRICE_DELTA = 0.002`. -/
def PRICE_DELTA : ℚ := 2 / 1000

/-- `http.HTTPStatus.UNAUTHORIZED`. -/
def UNAUTHORIZED : ℕ := 401

/-- Round a rational to the nearest integer, ties to even: the rounding mode
of Python's built-in `round`. -/
def roundHalfEven (q : ℚ) : ℤ :=
  let f := ⌊q⌋
  let r := q - (f : ℚ)
  if r < 1 / 2 then f
  else if 1 / 2 < r then f + 1
  else if f % 2 = 0 then f else f + 1

/-- Python's `round(x, n)` (rounding to `n` decimal digits, ties to even),
idealised over exact rationals. -/
def pyRound (x : ℚ) (n : ℤ) : ℚ :=
  (roundHalfEven (x * 10 ^ n) : ℚ) / 10 ^ n

/-- The failure modes of one `create_order` run.  The first three are the
`assert` statements of the source, named as in the spec's error taxonomy;
`typeError` is Python's `TypeError` raised when the `None` returned by
`_request` after a 401 is subscripted; `keyError` stands for the `KeyError`
raised when a response payload lacks the subscripted key. -/
inductive Err where
  | unsupportedPair
  | sizeOutOfBounds
  | invalidIncrement
  | typeError
  | keyError
deriving DecidableEq, Repr

/-- `CoinbaseDCA._get_currency_sigfigs`: `assert currency_increment > 0.0`
then `-int(math.floor(math.log10(currency_increment)))`, with the exact
`Int.log 10` standing for `math.floor(math.log10 ·)`. -/
def _get_currency_sigfigs (currency_increment : ℚ) : Except Err ℤ :=
  if 0 < currency_increment then .ok (-(Int.log 10 currency_increment))
  else .error .invalidIncrement

/-- The `limit_limit_gtc` object of the order-creation JSON body.  The
source renders `limit_price` and `base_size` as `str(...)` of the computed
floats; the model carries the exact computed numbers. -/
structure LimitLimitGtc where
  post_only : Bool
  limit_price : ℚ
  base_size : ℚ
deriving DecidableEq, Repr

/-- The `order_configuration` object of the order-creation JSON body. -/
structure OrderConfiguration where
  limit_limit_gtc : LimitLimitGtc
deriving DecidableEq, Repr

/-- The order-creation JSON body built in `create_order` (lines 87-98). -/
structure OrderBody where
  client_order_id : String
  side : String
  product_id : String
  order_configuration : OrderConfiguration
deriving DecidableEq, Repr

/-- One product entry of the `GET products` response; the source reads only
its `product_id` key. -/
structure ProductEntry where
  product_id : String
deriving DecidableEq, Repr

/-- The fields of a `GET products/<pair>` response that `create_order`
reads.  The real payload carries them as strings and the source converts
with `float(...)`; the model carries the parsed numbers directly. -/
structure ProductInfo where
  quote_min_size : ℚ
  quote_max_size : ℚ
  quote_increment : ℚ
  base_increment : ℚ
  base_min_size : ℚ
  base_max_size : ℚ
  price : ℚ
deriving DecidableEq, Repr

/-- The parsed JSON payload of an HTTP response, restricted to the shapes
the script distinguishes. -/
inductive Payload where
  | products (items : List ProductEntry)
  | product (p : ProductInfo)
  | generic
deriving DecidableEq, Repr

/-- An HTTP response: status code and parsed body. -/
structure Response where
  status : ℕ
  data : Payload
deriving DecidableEq, Repr

/-- One HTTP request as issued by `_request`: method, full endpoint path,
and body (`none` for the empty-body GETs, the order body for the POST). -/
structure NetRequest where
  method : HTTPMethod
  endpoint : String
  body : Option OrderBody
deriving DecidableEq, Repr

/-- The network, as seen by the script: what the exchange answers to each
request.  One `create_order` run is deterministic given an oracle. -/
def Oracle : Type := NetRequest → Response

/-- `CoinbaseDCA._request` (transport part, lines 110-136): issue the
request and return `None` on a 401 status, the parsed payload otherwise.
The request issued is returned alongside so callers can account for it. -/
def _request (net : Oracle) (method : HTTPMethod) (resource : String)
    (body : Option OrderBody := none) : NetRequest × Option Payload :=
  let endpoint := BASE_ENDPOINT ++ resource
  let req : NetRequest := ⟨method, endpoint, body⟩
  let res := net req
  if res.status = UNAUTHORIZED then (req, none) else (req, some res.data)

/-- `CoinbaseDCA.list_products` (lines 101-103):
`[product['product_id'] for product in response['products']]`.
Subscripting the `None` returned after a 401 raises `TypeError`; a payload
without the `products` key raises `KeyError`. -/
def list_products (net : Oracle) : NetRequest × Except Err (List String) :=
  let (req, response) := _request net .GET Resource.PRODUCTS.value
  match response with
  | none => (req, .error .typeError)
  | some (.products items) => (req, .ok (items.map ProductEntry.product_id))
  | some _ => (req, .error .keyError)

/-- `CoinbaseDCA.get_product` (lines 105-108): a GET on
`products/<pair>`, whose result is returned to `create_order` unparsed. -/
def get_product (net : Oracle) (pair : Pair) : NetRequest × Option Payload :=
  _request net .GET (Resource.PRODUCTS.value ++ "/" ++ pair.value)

/-- `CoinbaseDCA.create_order` (lines 51-99), with the freshly generated
`uuid.uuid4()` client order id passed in as `client_order_id`.  Returns the
list of HTTP requests issued, in order, and either the raised error or the
value `_request` returned for the order submission. -/
def create_order (net : Oracle) (client_order_id : String) (side : Side)
    (pair : Pair) (quote_size : ℚ) :
    List NetRequest × Except Err (Option Payload) :=
  let (req1, productsRes) := list_products net
  match productsRes with
  | .error e => ([req1], .error e)
  | .ok products =>
    if pair.value ∈ products then
      let (req2, productRes) := get_product net pair
      match productRes with
      | none => ([req1, req2], .error .typeError)
      | some (.product product) =>
        if product.quote_min_size ≤ quote_size then
          if quote_size ≤ product.quote_max_size then
            match _get_currency_sigfigs product.quote_increment with
            | .error e => ([req1, req2], .error e)
            | .ok quote_max_digits =>
              let price := product.price
              let price_factor : ℚ :=
                1 + (if side = Side.BUY then -PRICE_DELTA else PRICE_DELTA)
              let price_adjusted := pyRound (price * price_factor) quote_max_digits
              match _get_currency_sigfigs product.base_increment with
              | .error e => ([req1, req2], .error e)
              | .ok base_max_digits =>
                let base_size_rounded :=
                  pyRound (quote_size / price_adjusted) base_max_digits
                if product.base_min_size ≤ base_size_rounded then
                  if base_size_rounded ≤ product.base_max_size then
                    let body : OrderBody :=
                      { client_order_id := client_order_id
                        side := side.value
                        product_id := pair.value
                        order_configuration :=
                          ⟨⟨false, price_adjusted, base_size_rounded⟩⟩ }
                    let (req3, orderRes) :=
                      _request net .POST Resource.ORDERS.value (some body)
                    ([req1, req2, req3], .ok orderRes)
                  else ([req1, req2], .error .sizeOutOfBounds)
                else ([req1, req2], .error .sizeOutOfBounds)
          else ([req1, req2], .error .sizeOutOfBounds)
        else ([req1, req2], .error .sizeOutOfBounds)
      | some _ => ([req1, req2], .error .keyError)
    else ([req1], .error .unsupportedPair)

/-- The headers dict built in `_request` (lines 112-126). -/
structure Headers where
  accept : String
  CB_ACCESS_KEY : String
  CB_ACCESS_SIGN : String
  CB_ACCESS_TIMESTAMP : String
deriving DecidableEq, Repr

/-- `timestamp = str(int(time.time()))`: the integral seconds since epoch
at call time, rendered as a string. -/
def mkTimestamp (now : ℕ) : String := toString now

/-- The signing part of `CoinbaseDCA._request` (lines 112-126): the message
is `timestamp + method + endpoint + body` and the signature header is the
hex HMAC-SHA256 of it keyed by the secret.  The HMAC-SHA256 primitive is a
library function, passed in here as `hmacSha256Hex : key → message →
hex digest`. -/
def signedHeaders (hmacSha256Hex : String → String → String)
    (creds : CoinbaseApiCredentials) (timestamp : String)
    (method : HTTPMethod) (resource : String) (body : String) : Headers :=
  let endpoint := BASE_ENDPOINT ++ resource
  let message := timestamp ++ method.value ++ endpoint ++ body
  { accept := "application/json"
    CB_ACCESS_KEY := creds.key
    CB_ACCESS_SIGN := hmacSha256Hex creds.secret message
    CB_ACCESS_TIMESTAMP := timestamp }

/-- Lines 71-75 of `create_order` as a standalone function: the limit
price, offset by `PRICE_DELTA` away from the reference price and then
rounded to the digit count implied by `quote_increment` (assumed
positive, so that `_get_currency_sigfigs` returns
`-(Int.log 10 quote_increment)`). -/
def price_adjusted (side : Side) (p : ProductInfo) : ℚ :=
  pyRound (p.price * (1 + (if side = Side.BUY then -PRICE_DELTA else PRICE_DELTA)))
    (-(Int.log 10 p.quote_increment))

/-- Lines 78-80 of `create_order` as a standalone function: the
base-currency quantity, `quote_size / price_adjusted` rounded to the digit
count implied by `base_increment` (assumed positive). -/
def base_size_rounded (side : Side) (p : ProductInfo) (quote_size : ℚ) : ℚ :=
  pyRound (quote_size / price_adjusted side p) (-(Int.log 10 p.base_increment))

/-- The order body built at lines 87-98, in terms of the computed price
and size. -/
def orderBody (cid : String) (side : Side) (pair : Pair) (p : ProductInfo)
    (quote_size : ℚ) : OrderBody :=
  { client_order_id := cid
    side := side.value
    product_id := pair.value
    order_configuration :=
      ⟨⟨false, price_adjusted side p, base_size_rounded side p quote_size⟩⟩ }

/-- The spec's worked example as a product payload: reference price 50000,
`quote_increment` 0.01, `base_increment` 0.00000001, and wide size bounds. -/
def testProduct : ProductInfo :=
  { quote_min_size := 1
    quote_max_size := 1000000
    quote_increment := 1 / 100
    base_increment := 1 / 100000000
    base_min_size := 1 / 100000000
    base_max_size := 1000
    price := 50000 }

/-- The request issued by `list_products`. -/
def productsRequest : NetRequest :=
  ⟨.GET, BASE_ENDPOINT ++ Resource.PRODUCTS.value, none⟩

/-- The request issued by `get_product pair`. -/
def productRequest (pair : Pair) : NetRequest :=
  ⟨.GET, BASE_ENDPOINT ++ (Resource.PRODUCTS.value ++ "/" ++ pair.value), none⟩

/-- The order-submission request with body `b`. -/
def orderRequest (b : OrderBody) : NetRequest :=
  ⟨.POST, BASE_ENDPOINT ++ Resource.ORDERS.value, some b⟩

/-- A concrete healthy exchange: lists `BTC-USD`, serves `testProduct` for
it, and answers every request with status 200. -/
def testOracle : Oracle := fun req =>
  if req = productsRequest then ⟨200, .products [⟨"BTC-USD"⟩]⟩
  else if req = productRequest .BTC_USD then ⟨200, .product testProduct⟩
  else ⟨200, .generic⟩

/-- An exchange whose product list is empty. -/
def emptyOracle : Oracle := fun _ => ⟨200, .products []⟩

/-- An exchange that answers 401 Unauthorized to everything. -/
def unauthorizedOracle : Oracle := fun _ => ⟨401, .generic⟩

/-!
### Helper lemmas

Evaluation and path lemmas shared by the claim theorems below.
-/

/-- `_get_currency_sigfigs` on a positive increment returns
`-⌊log10 x⌋`, expressed with `Int.log`. -/
theorem sigfigs_of_pos {x : ℚ} (h : 0 < x) :
    _get_currency_sigfigs x = .ok (-(Int.log 10 x)) := if_pos h

/-- `_get_currency_sigfigs` on a non-positive increment fails the
assertion. -/
theorem sigfigs_of_nonpos {x : ℚ} (h : x ≤ 0) :
    _get_currency_sigfigs x = .error .invalidIncrement := if_neg (not_lt.mpr h)

/-- `Int.log` over `ℚ` agrees with `Int.log` over `ℝ` on the cast. -/
theorem int_log_cast (b : ℕ) (hb : 1 < b) (x : ℚ) (hx : 0 < x) :
    Int.log b (x : ℝ) = Int.log b x := by
  have hx' : (0 : ℝ) < (x : ℝ) := by exact_mod_cast hx
  have h1 : ((b : ℝ)) ^ (Int.log b x) ≤ (x : ℝ) := by
    have h := Int.zpow_log_le_self hb hx
    have h' := (Rat.cast_le (K := ℝ)).mpr h
    push_cast at h'
    exact h'
  have h2 : (x : ℝ) < (b : ℝ) ^ (Int.log b x + 1) := by
    have h := Int.lt_zpow_succ_log_self hb x
    have h' := (Rat.cast_lt (K := ℝ)).mpr h
    push_cast at h'
    exact h'
  have hle : Int.log b x ≤ Int.log b (x : ℝ) :=
    (Int.zpow_le_iff_le_log hb hx').mp h1
  have hlt : Int.log b (x : ℝ) < Int.log b x + 1 :=
    (Int.lt_zpow_iff_log_lt hb hx').mp h2
  omega

/-- `Int.log 10` of an exact power of ten. -/
theorem int_log_zpow10 (z : ℤ) : Int.log 10 ((10 : ℚ) ^ z) = z :=
  Int.log_zpow (by norm_num) z

/-- `Int.log 10 0.01 = -2`. -/
theorem int_log_hundredth : Int.log 10 ((1 : ℚ) / 100) = -2 := by
  rw [show ((1 : ℚ) / 100) = (10 : ℚ) ^ (-2 : ℤ) by rw [zpow_neg]; norm_num]
  exact int_log_zpow10 (-2)

/-- `Int.log 10 0.0001 = -4`. -/
theorem int_log_tenthousandth : Int.log 10 ((1 : ℚ) / 10000) = -4 := by
  rw [show ((1 : ℚ) / 10000) = (10 : ℚ) ^ (-4 : ℤ) by rw [zpow_neg]; norm_num]
  exact int_log_zpow10 (-4)

/-- `Int.log 10 0.00000001 = -8`. -/
theorem int_log_hundredmillionth : Int.log 10 ((1 : ℚ) / 100000000) = -8 := by
  rw [show ((1 : ℚ) / 100000000) = (10 : ℚ) ^ (-8 : ℤ) by rw [zpow_neg]; norm_num]
  exact int_log_zpow10 (-8)

/-- Evaluation rule for `pyRound` when the scaled value sits strictly below
the midpoint above its floor. -/
theorem pyRound_eq_of_floor (x : ℚ) (n f : ℤ) (hf : ⌊x * 10 ^ n⌋ = f)
    (h : x * 10 ^ n - (f : ℚ) < 1 / 2) : pyRound x n = (f : ℚ) / 10 ^ n := by
  simp only [pyRound, roundHalfEven, hf, if_pos h]

/-- The successful path of `create_order`: when the pair is listed, all
four size assertions hold and both increments are positive, the three
requests go out in order and the submission response is handed back
through the 401 filter of `_request`. -/
theorem create_order_success (net : Oracle) (cid : String) (side : Side) (pair : Pair)
    (quote_size : ℚ) (s1 s2 : ℕ) (items : List ProductEntry) (p : ProductInfo)
    (h1 : net productsRequest = ⟨s1, .products items⟩) (hs1 : s1 ≠ UNAUTHORIZED)
    (hmem : pair.value ∈ items.map ProductEntry.product_id)
    (h2 : net (productRequest pair) = ⟨s2, .product p⟩) (hs2 : s2 ≠ UNAUTHORIZED)
    (hq1 : p.quote_min_size ≤ quote_size) (hq2 : quote_size ≤ p.quote_max_size)
    (hqi : 0 < p.quote_increment) (hbi : 0 < p.base_increment)
    (hb1 : p.base_min_size ≤ base_size_rounded side p quote_size)
    (hb2 : base_size_rounded side p quote_size ≤ p.base_max_size) :
    create_order net cid side pair quote_size =
      ([productsRequest, productRequest pair,
        orderRequest (orderBody cid side pair p quote_size)],
       .ok (if (net (orderRequest (orderBody cid side pair p quote_size))).status = UNAUTHORIZED
            then none
            else some (net (orderRequest (orderBody cid side pair p quote_size))).data)) := by
  have h1' : net ⟨.GET, BASE_ENDPOINT ++ Resource.PRODUCTS.value, none⟩ = ⟨s1, .products items⟩ := h1
  have h2' : net ⟨.GET, BASE_ENDPOINT ++ (Resource.PRODUCTS.value ++ "/" ++ pair.value), none⟩ =
      ⟨s2, .product p⟩ := h2
  simp only [base_size_rounded, price_adjusted] at hb1 hb2
  simp only [create_order, list_products, get_product, _request, h1', h2', hs1,
    sigfigs_of_pos hqi, sigfigs_of_pos hbi, hmem, hq1, hq2, hs2, hb1, hb2,
    orderBody, price_adjusted, base_size_rounded,
    if_false, if_true, ite_false, ite_true,
    apply_ite (Prod.fst (α := NetRequest) (β := Option Payload)),
    apply_ite (Prod.snd (α := NetRequest) (β := Option Payload)), ite_self]
  rfl

/-- When the product-list response has status 401, `_request` yields `None`
and `list_products` subscripts it: `create_order` stops with a `TypeError`
after the single product-list request. -/
theorem create_order_products_401 (net : Oracle) (cid : String) (side : Side)
    (pair : Pair) (quote_size : ℚ) (h : (net productsRequest).status = UNAUTHORIZED) :
    create_order net cid side pair quote_size = ([productsRequest], .error .typeError) := by
  have h' : (net ⟨.GET, BASE_ENDPOINT ++ Resource.PRODUCTS.value, none⟩).status = UNAUTHORIZED := h
  simp only [create_order, list_products, get_product, _request, h', if_true, ite_true]
  rfl

/-- When the pair is missing from the product list, `create_order` stops
with `unsupportedPair` right after the product-list request, regardless of
everything else the oracle would answer. -/
theorem create_order_unsupported (net : Oracle) (cid : String) (side : Side)
    (pair : Pair) (quote_size : ℚ) (s1 : ℕ) (items : List ProductEntry)
    (h1 : net productsRequest = ⟨s1, .products items⟩) (hs1 : s1 ≠ UNAUTHORIZED)
    (hmem : pair.value ∉ items.map ProductEntry.product_id) :
    create_order net cid side pair quote_size = ([productsRequest], .error .unsupportedPair) := by
  have h1' : net ⟨.GET, BASE_ENDPOINT ++ Resource.PRODUCTS.value, none⟩ = ⟨s1, .products items⟩ := h1
  simp only [create_order, list_products, get_product, _request, h1', hs1, hmem,
    if_false, if_true, ite_false, ite_true]
  rfl

/-- When the product-detail response has status 401, `create_order`
subscripts the `None` returned by `_request` and stops with a `TypeError`
after the two GET requests. -/
theorem create_order_product_401 (net : Oracle) (cid : String) (side : Side)
    (pair : Pair) (quote_size : ℚ) (s1 : ℕ) (items : List ProductEntry)
    (h1 : net productsRequest = ⟨s1, .products items⟩) (hs1 : s1 ≠ UNAUTHORIZED)
    (hmem : pair.value ∈ items.map ProductEntry.product_id)
    (h2 : (net (productRequest pair)).status = UNAUTHORIZED) :
    create_order net cid side pair quote_size
      = ([productsRequest, productRequest pair], .error .typeError) := by
  have h1' : net ⟨.GET, BASE_ENDPOINT ++ Resource.PRODUCTS.value, none⟩ = ⟨s1, .products items⟩ := h1
  have h2' : (net ⟨.GET, BASE_ENDPOINT ++ (Resource.PRODUCTS.value ++ "/" ++ pair.value),
      none⟩).status = UNAUTHORIZED := h2
  simp only [create_order, list_products, get_product, _request, h1', hs1, hmem, h2',
    if_false, if_true, ite_false, ite_true]
  rfl

/-- When the spend amount is strictly below `quote_min_size`, the first
size assertion fails: `sizeOutOfBounds` after the two GET requests, no
order submitted. -/
theorem create_order_quote_below (net : Oracle) (cid : String) (side : Side)
    (pair : Pair) (quote_size : ℚ) (s1 s2 : ℕ) (items : List ProductEntry) (p : ProductInfo)
    (h1 : net productsRequest = ⟨s1, .products items⟩) (hs1 : s1 ≠ UNAUTHORIZED)
    (hmem : pair.value ∈ items.map ProductEntry.product_id)
    (h2 : net (productRequest pair) = ⟨s2, .product p⟩) (hs2 : s2 ≠ UNAUTHORIZED)
    (hlt : quote_size < p.quote_min_size) :
    create_order net cid side pair quote_size
      = ([productsRequest, productRequest pair], .error .sizeOutOfBounds) := by
  have h1' : net ⟨.GET, BASE_ENDPOINT ++ Resource.PRODUCTS.value, none⟩ = ⟨s1, .products items⟩ := h1
  have h2' : net ⟨.GET, BASE_ENDPOINT ++ (Resource.PRODUCTS.value ++ "/" ++ pair.value), none⟩ =
      ⟨s2, .product p⟩ := h2
  have hq1 : ¬ p.quote_min_size ≤ quote_size := not_le.mpr hlt
  simp only [create_order, list_products, get_product, _request, h1', hs1, hmem, h2', hs2, hq1,
    if_false, if_true, ite_false, ite_true]
  rfl

/-- When the spend amount is strictly above `quote_max_size`, the second
size assertion fails: `sizeOutOfBounds` after the two GET requests, no
order submitted. -/
theorem create_order_quote_above (net : Oracle) (cid : String) (side : Side)
    (pair : Pair) (quote_size : ℚ) (s1 s2 : ℕ) (items : List ProductEntry) (p : ProductInfo)
    (h1 : net productsRequest = ⟨s1, .products items⟩) (hs1 : s1 ≠ UNAUTHORIZED)
    (hmem : pair.value ∈ items.map ProductEntry.product_id)
    (h2 : net (productRequest pair) = ⟨s2, .product p⟩) (hs2 : s2 ≠ UNAUTHORIZED)
    (hq1 : p.quote_min_size ≤ quote_size)
    (hgt : p.quote_max_size < quote_size) :
    create_order net cid side pair quote_size
      = ([productsRequest, productRequest pair], .error .sizeOutOfBounds) := by
  have h1' : net ⟨.GET, BASE_ENDPOINT ++ Resource.PRODUCTS.value, none⟩ = ⟨s1, .products items⟩ := h1
  have h2' : net ⟨.GET, BASE_ENDPOINT ++ (Resource.PRODUCTS.value ++ "/" ++ pair.value), none⟩ =
      ⟨s2, .product p⟩ := h2
  have hq2 : ¬ quote_size ≤ p.quote_max_size := not_le.mpr hgt
  simp only [create_order, list_products, get_product, _request, h1', hs1, hmem, h2', hs2,
    hq1, hq2, if_false, if_true, ite_false, ite_true]
  rfl

/-- When the rounded base quantity falls strictly below `base_min_size`,
the third size assertion fails: `sizeOutOfBounds` after the two GET
requests, no order submitted. -/
theorem create_order_base_below (net : Oracle) (cid : String) (side : Side)
    (pair : Pair) (quote_size : ℚ) (s1 s2 : ℕ) (items : List ProductEntry) (p : ProductInfo)
    (h1 : net productsRequest = ⟨s1, .products items⟩) (hs1 : s1 ≠ UNAUTHORIZED)
    (hmem : pair.value ∈ items.map ProductEntry.product_id)
    (h2 : net (productRequest pair) = ⟨s2, .product p⟩) (hs2 : s2 ≠ UNAUTHORIZED)
    (hq1 : p.quote_min_size ≤ quote_size) (hq2 : quote_size ≤ p.quote_max_size)
    (hqi : 0 < p.quote_increment) (hbi : 0 < p.base_increment)
    (hlt : base_size_rounded side p quote_size < p.base_min_size) :
    create_order net cid side pair quote_size
      = ([productsRequest, productRequest pair], .error .sizeOutOfBounds) := by
  have h1' : net ⟨.GET, BASE_ENDPOINT ++ Resource.PRODUCTS.value, none⟩ = ⟨s1, .products items⟩ := h1
  have h2' : net ⟨.GET, BASE_ENDPOINT ++ (Resource.PRODUCTS.value ++ "/" ++ pair.value), none⟩ =
      ⟨s2, .product p⟩ := h2
  have hb1 : ¬ p.base_min_size ≤ base_size_rounded side p quote_size := not_le.mpr hlt
  simp only [base_size_rounded, price_adjusted] at hb1
  simp only [create_order, list_products, get_product, _request, h1', hs1, hmem, h2', hs2,
    hq1, hq2, sigfigs_of_pos hqi, sigfigs_of_pos hbi, hb1,
    if_false, if_true, ite_false, ite_true]
  rfl

/-- When the rounded base quantity lands strictly above `base_max_size`,
the fourth size assertion fails: `sizeOutOfBounds` after the two GET
requests, no order submitted. -/
theorem create_order_base_above (net : Oracle) (cid : String) (side : Side)
    (pair : Pair) (quote_size : ℚ) (s1 s2 : ℕ) (items : List ProductEntry) (p : ProductInfo)
    (h1 : net productsRequest = ⟨s1, .products items⟩) (hs1 : s1 ≠ UNAUTHORIZED)
    (hmem : pair.value ∈ items.map ProductEntry.product_id)
    (h2 : net (productRequest pair) = ⟨s2, .product p⟩) (hs2 : s2 ≠ UNAUTHORIZED)
    (hq1 : p.quote_min_size ≤ quote_size) (hq2 : quote_size ≤ p.quote_max_size)
    (hqi : 0 < p.quote_increment) (hbi : 0 < p.base_increment)
    (hb1 : p.base_min_size ≤ base_size_rounded side p quote_size)
    (hgt : p.base_max_size < base_size_rounded side p quote_size) :
    create_order net cid side pair quote_size
      = ([productsRequest, productRequest pair], .error .sizeOutOfBounds) := by
  have h1' : net ⟨.GET, BASE_ENDPOINT ++ Resource.PRODUCTS.value, none⟩ = ⟨s1, .products items⟩ := h1
  have h2' : net ⟨.GET, BASE_ENDPOINT ++ (Resource.PRODUCTS.value ++ "/" ++ pair.value), none⟩ =
      ⟨s2, .product p⟩ := h2
  have hb2 : ¬ base_size_rounded side p quote_size ≤ p.base_max_size := not_le.mpr hgt
  simp only [base_size_rounded, price_adjusted] at hb1 hb2
  simp only [create_order, list_products, get_product, _request, h1', hs1, hmem, h2', hs2,
    hq1, hq2, sigfigs_of_pos hqi, sigfigs_of_pos hbi, hb1, hb2,
    if_false, if_true, ite_false, ite_true]
  rfl

/-- `testOracle` serves the product list. -/
theorem testOracle_products :
    testOracle productsRequest = ⟨200, .products [⟨"BTC-USD"⟩]⟩ := rfl

/-- `testOracle` serves the product details. -/
theorem testOracle_product :
    testOracle (productRequest .BTC_USD) = ⟨200, .product testProduct⟩ := rfl

/-- `testOracle` accepts any order submission with status 200. -/
theorem testOracle_order (b : OrderBody) :
    testOracle (orderRequest b) = ⟨200, .generic⟩ := rfl

/-- The worked example's adjusted price:
`round(50000 * 0.998, 2) = 49900`. -/
theorem price_adjusted_test : price_adjusted Side.BUY testProduct = 49900 := by
  rw [price_adjusted, show testProduct.quote_increment = 1 / 100 from rfl,
    show testProduct.price = 50000 from rfl, int_log_hundredth,
    show (1 + (if Side.BUY = Side.BUY then -PRICE_DELTA else PRICE_DELTA) : ℚ) = 998 / 1000
      by norm_num [PRICE_DELTA],
    show (-(-2 : ℤ)) = 2 by norm_num,
    pyRound_eq_of_floor _ 2 4990000 (by norm_num) (by norm_num)]
  norm_num

/-- The worked example's base size:
`round(10 / 49900, 8) = 0.00020040`. -/
theorem base_size_test10 : base_size_rounded Side.BUY testProduct 10 = 501 / 2500000 := by
  rw [base_size_rounded, price_adjusted_test,
    show testProduct.base_increment = 1 / 100000000 from rfl, int_log_hundredmillionth,
    show (-(-8 : ℤ)) = 8 by norm_num,
    pyRound_eq_of_floor _ 8 20040 (by norm_num) (by norm_num)]
  norm_num

/-- Base size for a spend of exactly `quote_min_size = 1`:
`round(1 / 49900, 8) = 0.00002004`. -/
theorem base_size_test1 : base_size_rounded Side.BUY testProduct 1 = 501 / 25000000 := by
  rw [base_size_rounded, price_adjusted_test,
    show testProduct.base_increment = 1 / 100000000 from rfl, int_log_hundredmillionth,
    show (-(-8 : ℤ)) = 8 by norm_num,
    pyRound_eq_of_floor _ 8 2004 (by norm_num) (by norm_num)]
  norm_num

/-- The order body of the worked example. -/
theorem orderBody_test :
    orderBody "cid" Side.BUY Pair.BTC_USD testProduct 10
      = ⟨"cid", "BUY", "BTC-USD", ⟨⟨false, 49900, 501 / 2500000⟩⟩⟩ := by
  simp only [orderBody, price_adjusted_test, base_size_test10]
  rfl

/-- The complete worked-example run: all three requests go out and the
exchange's order response is returned. -/
theorem create_order_test_eq :
    create_order testOracle "cid" Side.BUY Pair.BTC_USD 10
      = ([productsRequest, productRequest .BTC_USD,
          orderRequest ⟨"cid", "BUY", "BTC-USD", ⟨⟨false, 49900, 501 / 2500000⟩⟩⟩],
         .ok (some .generic)) := by
  have h := create_order_success testOracle "cid" Side.BUY Pair.BTC_USD 10 200 200
    [⟨"BTC-USD"⟩] testProduct testOracle_products (by decide) (by simp [Pair.value])
    testOracle_product (by decide) (by norm_num [testProduct])
    (by norm_num [testProduct])
    (by norm_num [testProduct]) (by norm_num [testProduct])
    (by rw [base_size_test10]; norm_num [testProduct])
    (by rw [base_size_test10]; norm_num [testProduct])
  rw [h, orderBody_test, testOracle_order]
  rfl

/-- Whatever the oracle answers, `create_order` issues one of exactly three
request sequences: the product-list GET alone, the two GETs, or the two
GETs followed by one order POST. -/
theorem create_order_trace_shape (net : Oracle) (cid : String) (side : Side)
    (pair : Pair) (quote_size : ℚ) :
    (create_order net cid side pair quote_size).1 = [productsRequest] ∨
    (create_order net cid side pair quote_size).1 = [productsRequest, productRequest pair] ∨
    ∃ b, (create_order net cid side pair quote_size).1
      = [productsRequest, productRequest pair, orderRequest b] := by
  simp only [create_order, list_products, get_product, _request,
    apply_ite (Prod.fst (α := NetRequest) (β := Option Payload)),
    apply_ite (Prod.snd (α := NetRequest) (β := Option Payload)), ite_self]
  repeat' split
  all_goals first
    | (left; rfl)
    | (right; left; rfl)
    | (right; right; exact ⟨_, rfl⟩)

/-!
### Claim theorems
-/

/-- C1: in `create_order`, for every side and reference price, the adjusted
limit price is obtained by first multiplying the reference price by 0.998
(BUY) or 1.002 (SELL) and only then rounding to the significant-digit count
implied by `quote_increment`; in particular, for reference price 50000,
`quote_increment` 0.01 and side BUY the adjusted price is
`round(50000 * 0.998, 2) = 49900`. -/
theorem claim_C1_price_offset_then_round :
    (∀ (net : Oracle) (cid : String) (side : Side) (pair : Pair) (quote_size : ℚ)
       (s1 s2 : ℕ) (items : List ProductEntry) (p : ProductInfo),
       net productsRequest = ⟨s1, .products items⟩ → s1 ≠ UNAUTHORIZED →
       pair.value ∈ items.map ProductEntry.product_id →
       net (productRequest pair) = ⟨s2, .product p⟩ → s2 ≠ UNAUTHORIZED →
       p.quote_min_size ≤ quote_size → quote_size ≤ p.quote_max_size →
       0 < p.quote_increment → 0 < p.base_increment →
       p.base_min_size ≤ base_size_rounded side p quote_size →
       base_size_rounded side p quote_size ≤ p.base_max_size →
       ∃ d : ℤ, _get_currency_sigfigs p.quote_increment = .ok d ∧
         ∃ o : Option Payload,
           create_order net cid side pair quote_size =
             ([productsRequest, productRequest pair,
               orderRequest (orderBody cid side pair p quote_size)], .ok o) ∧
           (orderBody cid side pair p quote_size).order_configuration.limit_limit_gtc.limit_price
             = pyRound (p.price * (if side = Side.BUY then 998 / 1000 else 1002 / 1000)) d) ∧
    price_adjusted Side.BUY testProduct = 49900 ∧
    testProduct.price = 50000 ∧ testProduct.quote_increment = 1 / 100 ∧
    pyRound (50000 * (998 / 1000)) 2 = 49900 := by
  refine ⟨?_, price_adjusted_test, rfl, rfl, ?_⟩
  · intro net cid side pair quote_size s1 s2 items p h1 hs1 hmem h2 hs2 hq1 hq2 hqi hbi hb1 hb2
    refine ⟨-(Int.log 10 p.quote_increment), sigfigs_of_pos hqi, _,
      create_order_success net cid side pair quote_size s1 s2 items p
        h1 hs1 hmem h2 hs2 hq1 hq2 hqi hbi hb1 hb2, ?_⟩
    show price_adjusted side p = _
    rw [price_adjusted,
      show (1 + (if side = Side.BUY then -PRICE_DELTA else PRICE_DELTA) : ℚ)
          = (if side = Side.BUY then 998 / 1000 else 1002 / 1000) by
        cases side
        · norm_num [PRICE_DELTA]
        · rw [if_neg (by decide : ¬ (Side.SELL = Side.BUY)),
            if_neg (by decide : ¬ (Side.SELL = Side.BUY))]
          norm_num [PRICE_DELTA]]
  · rw [pyRound_eq_of_floor _ 2 4990000 (by norm_num) (by norm_num)]
    norm_num

/-- C1 witness: the worked example run through `create_order` against
`testOracle`. -/
theorem claim_C1_witness :
    ∃ d : ℤ, _get_currency_sigfigs testProduct.quote_increment = .ok d ∧
      ∃ o : Option Payload,
        create_order testOracle "cid" Side.BUY Pair.BTC_USD 10 =
          ([productsRequest, productRequest Pair.BTC_USD,
            orderRequest (orderBody "cid" Side.BUY Pair.BTC_USD testProduct 10)], .ok o) ∧
        (orderBody "cid" Side.BUY Pair.BTC_USD testProduct
            10).order_configuration.limit_limit_gtc.limit_price
          = pyRound (testProduct.price *
              (if Side.BUY = Side.BUY then 998 / 1000 else 1002 / 1000)) d :=
  claim_C1_price_offset_then_round.1 testOracle "cid" Side.BUY Pair.BTC_USD 10 200 200
    [⟨"BTC-USD"⟩] testProduct testOracle_products (by decide) (by simp [Pair.value])
    testOracle_product (by decide) (by norm_num [testProduct]) (by norm_num [testProduct])
    (by norm_num [testProduct]) (by norm_num [testProduct])
    (by rw [base_size_test10]; norm_num [testProduct])
    (by rw [base_size_test10]; norm_num [testProduct])

/-- C2: for every increment `x > 0`, `_get_currency_sigfigs x` equals
`-⌊log10 x⌋` (stated with the real base-10 logarithm); in particular
`sigfigs 0.01 = 2`, `sigfigs 0.0001 = 4` and `sigfigs 1 = 0`; for `x ≤ 0`
the computation fails with the invalid-increment error instead of
returning a value. -/
theorem claim_C2_sigfigs :
    (∀ x : ℚ, 0 < x →
       _get_currency_sigfigs x = .ok (-(⌊Real.logb 10 (x : ℝ)⌋))) ∧
    (∀ x : ℚ, x ≤ 0 → _get_currency_sigfigs x = .error .invalidIncrement) ∧
    _get_currency_sigfigs (1 / 100) = .ok 2 ∧
    _get_currency_sigfigs (1 / 10000) = .ok 4 ∧
    _get_currency_sigfigs 1 = .ok 0 := by
  refine ⟨?_, fun x hx => sigfigs_of_nonpos hx, ?_, ?_, ?_⟩
  · intro x hx
    have hx' : (0 : ℝ) ≤ (x : ℝ) := by positivity
    have hfl := Real.floor_logb_natCast (b := 10) (r := (x : ℝ)) hx'
    rw [show ((10 : ℕ) : ℝ) = (10 : ℝ) by norm_num] at hfl
    rw [sigfigs_of_pos hx, hfl, int_log_cast 10 (by norm_num) x hx]
  · rw [sigfigs_of_pos (by norm_num), int_log_hundredth]
    norm_num
  · rw [sigfigs_of_pos (by norm_num), int_log_tenthousandth]
    norm_num
  · rw [sigfigs_of_pos (by norm_num), Int.log_one_right, neg_zero]

/-- C2 witness: the universally quantified parts applied at `x = 0.01`
and `x = -1`. -/
theorem claim_C2_witness :
    _get_currency_sigfigs (1 / 100) = .ok (-(⌊Real.logb 10 (((1 : ℚ) / 100 : ℚ) : ℝ)⌋)) ∧
    _get_currency_sigfigs (-1) = .error .invalidIncrement :=
  ⟨claim_C2_sigfigs.1 (1 / 100) (by norm_num),
   claim_C2_sigfigs.2.1 (-1) (by norm_num)⟩

/-- C3: the base-currency quantity is the quote spend amount divided by the
adjusted limit price, rounded to the significant-digit count of
`base_increment` via the same sigfigs function; in particular
`round(10 / 49900, 8) = 0.00020040`. -/
theorem claim_C3_base_size :
    (∀ (net : Oracle) (cid : String) (side : Side) (pair : Pair) (quote_size : ℚ)
       (s1 s2 : ℕ) (items : List ProductEntry) (p : ProductInfo),
       net productsRequest = ⟨s1, .products items⟩ → s1 ≠ UNAUTHORIZED →
       pair.value ∈ items.map ProductEntry.product_id →
       net (productRequest pair) = ⟨s2, .product p⟩ → s2 ≠ UNAUTHORIZED →
       p.quote_min_size ≤ quote_size → quote_size ≤ p.quote_max_size →
       0 < p.quote_increment → 0 < p.base_increment →
       p.base_min_size ≤ base_size_rounded side p quote_size →
       base_size_rounded side p quote_size ≤ p.base_max_size →
       ∃ d : ℤ, _get_currency_sigfigs p.base_increment = .ok d ∧
         ∃ o : Option Payload,
           create_order net cid side pair quote_size =
             ([productsRequest, productRequest pair,
               orderRequest (orderBody cid side pair p quote_size)], .ok o) ∧
           (orderBody cid side pair p quote_size).order_configuration.limit_limit_gtc.base_size
             = pyRound (quote_size / price_adjusted side p) d) ∧
    pyRound ((10 : ℚ) / 49900) 8 = 20040 / 100000000 ∧
    _get_currency_sigfigs (1 / 100000000) = .ok 8 ∧
    base_size_rounded Side.BUY testProduct 10 = 20040 / 100000000 := by
  refine ⟨?_, ?_, ?_, ?_⟩
  · intro net cid side pair quote_size s1 s2 items p h1 hs1 hmem h2 hs2 hq1 hq2 hqi hbi hb1 hb2
    exact ⟨-(Int.log 10 p.base_increment), sigfigs_of_pos hbi, _,
      create_order_success net cid side pair quote_size s1 s2 items p
        h1 hs1 hmem h2 hs2 hq1 hq2 hqi hbi hb1 hb2, rfl⟩
  · rw [pyRound_eq_of_floor _ 8 20040 (by norm_num) (by norm_num)]
    norm_num
  · rw [sigfigs_of_pos (by norm_num), int_log_hundredmillionth]
    norm_num
  · rw [base_size_test10]
    norm_num

/-- C3 witness: the worked example run through `create_order` against
`testOracle`. -/
theorem claim_C3_witness :
    ∃ d : ℤ, _get_currency_sigfigs testProduct.base_increment = .ok d ∧
      ∃ o : Option Payload,
        create_order testOracle "cid" Side.BUY Pair.BTC_USD 10 =
          ([productsRequest, productRequest Pair.BTC_USD,
            orderRequest (orderBody "cid" Side.BUY Pair.BTC_USD testProduct 10)], .ok o) ∧
        (orderBody "cid" Side.BUY Pair.BTC_USD testProduct
            10).order_configuration.limit_limit_gtc.base_size
          = pyRound (10 / price_adjusted Side.BUY testProduct) d :=
  claim_C3_base_size.1 testOracle "cid" Side.BUY Pair.BTC_USD 10 200 200
    [⟨"BTC-USD"⟩] testProduct testOracle_products (by decide) (by simp [Pair.value])
    testOracle_product (by decide) (by norm_num [testProduct]) (by norm_num [testProduct])
    (by norm_num [testProduct]) (by norm_num [testProduct])
    (by rw [base_size_test10]; norm_num [testProduct])
    (by rw [base_size_test10]; norm_num [testProduct])

/-- C4: `create_order` validates the spend amount against
`[quote_min_size, quote_max_size]` and the computed base quantity against
`[base_min_size, base_max_size]` with inclusive bounds: values meeting the
bounds (equality included) are accepted and the order goes out; a value
strictly below a minimum or strictly above a maximum stops the call with
`sizeOutOfBounds` after the two GETs, so the order is never submitted. -/
theorem claim_C4_inclusive_bounds :
    (∀ (net : Oracle) (cid : String) (side : Side) (pair : Pair) (quote_size : ℚ)
       (s1 s2 : ℕ) (items : List ProductEntry) (p : ProductInfo),
       net productsRequest = ⟨s1, .products items⟩ → s1 ≠ UNAUTHORIZED →
       pair.value ∈ items.map ProductEntry.product_id →
       net (productRequest pair) = ⟨s2, .product p⟩ → s2 ≠ UNAUTHORIZED →
       p.quote_min_size ≤ quote_size → quote_size ≤ p.quote_max_size →
       0 < p.quote_increment → 0 < p.base_increment →
       p.base_min_size ≤ base_size_rounded side p quote_size →
       base_size_rounded side p quote_size ≤ p.base_max_size →
       ∃ o : Option Payload,
         create_order net cid side pair quote_size =
           ([productsRequest, productRequest pair,
             orderRequest (orderBody cid side pair p quote_size)], .ok o)) ∧
    (∀ (net : Oracle) (cid : String) (side : Side) (pair : Pair) (quote_size : ℚ)
       (s1 s2 : ℕ) (items : List ProductEntry) (p : ProductInfo),
       net productsRequest = ⟨s1, .products items⟩ → s1 ≠ UNAUTHORIZED →
       pair.value ∈ items.map ProductEntry.product_id →
       net (productRequest pair) = ⟨s2, .product p⟩ → s2 ≠ UNAUTHORIZED →
       quote_size < p.quote_min_size →
       create_order net cid side pair quote_size
         = ([productsRequest, productRequest pair], .error .sizeOutOfBounds)) ∧
    (∀ (net : Oracle) (cid : String) (side : Side) (pair : Pair) (quote_size : ℚ)
       (s1 s2 : ℕ) (items : List ProductEntry) (p : ProductInfo),
       net productsRequest = ⟨s1, .products items⟩ → s1 ≠ UNAUTHORIZED →
       pair.value ∈ items.map ProductEntry.product_id →
       net (productRequest pair) = ⟨s2, .product p⟩ → s2 ≠ UNAUTHORIZED →
       p.quote_min_size ≤ quote_size → p.quote_max_size < quote_size →
       create_order net cid side pair quote_size
         = ([productsRequest, productRequest pair], .error .sizeOutOfBounds)) ∧
    (∀ (net : Oracle) (cid : String) (side : Side) (pair : Pair) (quote_size : ℚ)
       (s1 s2 : ℕ) (items : List ProductEntry) (p : ProductInfo),
       net productsRequest = ⟨s1, .products items⟩ → s1 ≠ UNAUTHORIZED →
       pair.value ∈ items.map ProductEntry.product_id →
       net (productRequest pair) = ⟨s2, .product p⟩ → s2 ≠ UNAUTHORIZED →
       p.quote_min_size ≤ quote_size → quote_size ≤ p.quote_max_size →
       0 < p.quote_increment → 0 < p.base_increment →
       base_size_rounded side p quote_size < p.base_min_size →
       create_order net cid side pair quote_size
         = ([productsRequest, productRequest pair], .error .sizeOutOfBounds)) ∧
    (∀ (net : Oracle) (cid : String) (side : Side) (pair : Pair) (quote_size : ℚ)
       (s1 s2 : ℕ) (items : List ProductEntry) (p : ProductInfo),
       net productsRequest = ⟨s1, .products items⟩ → s1 ≠ UNAUTHORIZED →
       pair.value ∈ items.map ProductEntry.product_id →
       net (productRequest pair) = ⟨s2, .product p⟩ → s2 ≠ UNAUTHORIZED →
       p.quote_min_size ≤ quote_size → quote_size ≤ p.quote_max_size →
       0 < p.quote_increment → 0 < p.base_increment →
       p.base_min_size ≤ base_size_rounded side p quote_size →
       p.base_max_size < base_size_rounded side p quote_size →
       create_order net cid side pair quote_size
         = ([productsRequest, productRequest pair], .error .sizeOutOfBounds)) := by
  refine ⟨?_, ?_, ?_, ?_, ?_⟩
  · intro net cid side pair quote_size s1 s2 items p h1 hs1 hmem h2 hs2 hq1 hq2 hqi hbi hb1 hb2
    exact ⟨_, create_order_success net cid side pair quote_size s1 s2 items p
      h1 hs1 hmem h2 hs2 hq1 hq2 hqi hbi hb1 hb2⟩
  · intro net cid side pair quote_size s1 s2 items p h1 hs1 hmem h2 hs2 hlt
    exact create_order_quote_below net cid side pair quote_size s1 s2 items p
      h1 hs1 hmem h2 hs2 hlt
  · intro net cid side pair quote_size s1 s2 items p h1 hs1 hmem h2 hs2 hq1 hgt
    exact create_order_quote_above net cid side pair quote_size s1 s2 items p
      h1 hs1 hmem h2 hs2 hq1 hgt
  · intro net cid side pair quote_size s1 s2 items p h1 hs1 hmem h2 hs2 hq1 hq2 hqi hbi hlt
    exact create_order_base_below net cid side pair quote_size s1 s2 items p
      h1 hs1 hmem h2 hs2 hq1 hq2 hqi hbi hlt
  · intro net cid side pair quote_size s1 s2 items p h1 hs1 hmem h2 hs2 hq1 hq2 hqi hbi hb1 hgt
    exact create_order_base_above net cid side pair quote_size s1 s2 items p
      h1 hs1 hmem h2 hs2 hq1 hq2 hqi hbi hb1 hgt

/-- C4 witness: a spend amount exactly equal to `quote_min_size = 1` is
accepted and the order submitted, while a spend of 0.5, strictly below the
minimum, is rejected with `sizeOutOfBounds` and no order request goes
out. -/
theorem claim_C4_witness :
    (∃ o : Option Payload,
       create_order testOracle "cid" Side.BUY Pair.BTC_USD 1 =
         ([productsRequest, productRequest Pair.BTC_USD,
           orderRequest (orderBody "cid" Side.BUY Pair.BTC_USD testProduct 1)], .ok o)) ∧
    create_order testOracle "cid" Side.BUY Pair.BTC_USD (1 / 2)
      = ([productsRequest, productRequest Pair.BTC_USD], .error .sizeOutOfBounds) :=
  ⟨claim_C4_inclusive_bounds.1 testOracle "cid" Side.BUY Pair.BTC_USD 1 200 200
    [⟨"BTC-USD"⟩] testProduct testOracle_products (by decide) (by simp [Pair.value])
    testOracle_product (by decide) (by norm_num [testProduct]) (by norm_num [testProduct])
    (by norm_num [testProduct]) (by norm_num [testProduct])
    (by rw [base_size_test1]; norm_num [testProduct])
    (by rw [base_size_test1]; norm_num [testProduct]),
   claim_C4_inclusive_bounds.2.1 testOracle "cid" Side.BUY Pair.BTC_USD (1 / 2) 200 200
    [⟨"BTC-USD"⟩] testProduct testOracle_products (by decide) (by simp [Pair.value])
    testOracle_product (by decide) (by norm_num [testProduct])⟩

/-- C5: a pair absent from the exchange product listing makes
`create_order` fail with `unsupportedPair` straight after the product-list
request: the product-detail fetch, the sigfigs computation and all
price and quantity arithmetic never happen (the trace holds the single
product-list GET), and no order is submitted, whatever the oracle would
answer elsewhere. -/
theorem claim_C5_unsupported_pair :
    ∀ (net : Oracle) (cid : String) (side : Side) (pair : Pair) (quote_size : ℚ)
      (s1 : ℕ) (items : List ProductEntry),
      net productsRequest = ⟨s1, .products items⟩ → s1 ≠ UNAUTHORIZED →
      pair.value ∉ items.map ProductEntry.product_id →
      create_order net cid side pair quote_size
        = ([productsRequest], .error .unsupportedPair) :=
  fun net cid side pair quote_size s1 items h1 hs1 hmem =>
    create_order_unsupported net cid side pair quote_size s1 items h1 hs1 hmem

/-- C5 witness: against an exchange with an empty product list, the BTC-USD
order is rejected as unsupported after one request. -/
theorem claim_C5_witness :
    create_order emptyOracle "cid" Side.BUY Pair.BTC_USD 10
      = ([productsRequest], .error .unsupportedPair) :=
  claim_C5_unsupported_pair emptyOracle "cid" Side.BUY Pair.BTC_USD 10 200 []
    rfl (by decide) (by simp)


/-- Projection of `_request` onto the value handed back to the caller. -/
theorem _request_snd (net : Oracle) (method : HTTPMethod) (resource : String)
    (body : Option OrderBody) :
    (_request net method resource body).2
      = if (net ⟨method, BASE_ENDPOINT ++ resource, body⟩).status = UNAUTHORIZED
        then none else some (net ⟨method, BASE_ENDPOINT ++ resource, body⟩).data := by
  simp only [_request, apply_ite (Prod.snd (α := NetRequest) (β := Option Payload))]

/-- C6: a 401 status on any request makes `_request` hand `None` back to
its caller (a distinguishable unauthorized outcome; any other status is
handed back as the parsed payload), and a 401 anywhere in `create_order`
never leads to an order submission: a 401 on either GET means no order
POST is ever issued, and a 401 on the submission itself surfaces as the
`None` result. -/
theorem claim_C6_unauthorized_none :
    (∀ (net : Oracle) (method : HTTPMethod) (resource : String) (body : Option OrderBody),
       (net ⟨method, BASE_ENDPOINT ++ resource, body⟩).status = UNAUTHORIZED →
       (_request net method resource body).2 = none) ∧
    (∀ (net : Oracle) (method : HTTPMethod) (resource : String) (body : Option OrderBody),
       (net ⟨method, BASE_ENDPOINT ++ resource, body⟩).status ≠ UNAUTHORIZED →
       (_request net method resource body).2
         = some (net ⟨method, BASE_ENDPOINT ++ resource, body⟩).data) ∧
    (∀ (net : Oracle) (cid : String) (side : Side) (pair : Pair) (quote_size : ℚ),
       (net productsRequest).status = UNAUTHORIZED →
       ∀ b : OrderBody, orderRequest b ∉ (create_order net cid side pair quote_size).1) ∧
    (∀ (net : Oracle) (cid : String) (side : Side) (pair : Pair) (quote_size : ℚ)
       (s1 : ℕ) (items : List ProductEntry),
       net productsRequest = ⟨s1, .products items⟩ → s1 ≠ UNAUTHORIZED →
       pair.value ∈ items.map ProductEntry.product_id →
       (net (productRequest pair)).status = UNAUTHORIZED →
       ∀ b : OrderBody, orderRequest b ∉ (create_order net cid side pair quote_size).1) ∧
    (∀ (net : Oracle) (cid : String) (side : Side) (pair : Pair) (quote_size : ℚ)
       (s1 s2 : ℕ) (items : List ProductEntry) (p : ProductInfo),
       net productsRequest = ⟨s1, .products items⟩ → s1 ≠ UNAUTHORIZED →
       pair.value ∈ items.map ProductEntry.product_id →
       net (productRequest pair) = ⟨s2, .product p⟩ → s2 ≠ UNAUTHORIZED →
       p.quote_min_size ≤ quote_size → quote_size ≤ p.quote_max_size →
       0 < p.quote_increment → 0 < p.base_increment →
       p.base_min_size ≤ base_size_rounded side p quote_size →
       base_size_rounded side p quote_size ≤ p.base_max_size →
       (net (orderRequest (orderBody cid side pair p quote_size))).status = UNAUTHORIZED →
       (create_order net cid side pair quote_size).2 = .ok none) := by
  refine ⟨?_, ?_, ?_, ?_, ?_⟩
  · intro net method resource body h
    rw [_request_snd, if_pos h]
  · intro net method resource body h
    rw [_request_snd, if_neg h]
  · intro net cid side pair quote_size h b
    rw [create_order_products_401 net cid side pair quote_size h]
    simp [orderRequest, productsRequest]
  · intro net cid side pair quote_size s1 items h1 hs1 hmem h2 b
    rw [create_order_product_401 net cid side pair quote_size s1 items h1 hs1 hmem h2]
    simp [orderRequest, productsRequest, productRequest]
  · intro net cid side pair quote_size s1 s2 items p h1 hs1 hmem h2 hs2 hq1 hq2 hqi hbi
      hb1 hb2 h401
    rw [create_order_success net cid side pair quote_size s1 s2 items p
      h1 hs1 hmem h2 hs2 hq1 hq2 hqi hbi hb1 hb2]
    simp only [if_pos h401]

/-- C6 witness: a 401 on the product-list request makes `_request` return
`None`. -/
theorem claim_C6_witness :
    (_request unauthorizedOracle HTTPMethod.GET Resource.PRODUCTS.value none).2 = none :=
  claim_C6_unauthorized_none.1 unauthorizedOracle HTTPMethod.GET Resource.PRODUCTS.value
    none rfl

/-- C7 counterexample: the claim says every invocation of `create_order`
issues at most two network calls, but the worked-example run issues
three — the product-list GET, the product-detail GET and the order
POST. -/
theorem claim_C7_counterexample :
    ¬ ((create_order testOracle "cid" Side.BUY Pair.BTC_USD 10).1.length ≤ 2) := by
  rw [create_order_test_eq]
  simp

/-- C7 (amended): every invocation of `create_order` issues at most three
sequential network calls — the product-list GET, then the product-detail
GET, then the order POST — and the request trace is always an initial
portion of that sequence. -/
theorem claim_C7_amended_three_calls :
    ∀ (net : Oracle) (cid : String) (side : Side) (pair : Pair) (quote_size : ℚ),
      ((create_order net cid side pair quote_size).1 = [productsRequest] ∨
       (create_order net cid side pair quote_size).1
         = [productsRequest, productRequest pair] ∨
       ∃ b : OrderBody, (create_order net cid side pair quote_size).1
         = [productsRequest, productRequest pair, orderRequest b]) ∧
      (create_order net cid side pair quote_size).1.length ≤ 3 := by
  intro net cid side pair quote_size
  refine ⟨create_order_trace_shape net cid side pair quote_size, ?_⟩
  rcases create_order_trace_shape net cid side pair quote_size with h | h | ⟨b, h⟩ <;>
    rw [h] <;> simp

/-- C8: the signature header is the hex HMAC-SHA256, keyed by the secret,
of the concatenation `timestamp + method + fullPath + body`, where the
timestamp is the integral seconds-since-epoch rendered at call time, and
the very same timestamp string is sent in the timestamp header (the key
header carrying the API key). -/
theorem claim_C8_signature :
    ∀ (hmacSha256Hex : String → String → String) (creds : CoinbaseApiCredentials)
      (now : ℕ) (method : HTTPMethod) (resource : String) (body : String),
      (signedHeaders hmacSha256Hex creds (mkTimestamp now) method resource body).CB_ACCESS_SIGN
        = hmacSha256Hex creds.secret
            (mkTimestamp now ++ method.value ++ (BASE_ENDPOINT ++ resource) ++ body) ∧
      (signedHeaders hmacSha256Hex creds (mkTimestamp now) method resource
          body).CB_ACCESS_TIMESTAMP = mkTimestamp now ∧
      (signedHeaders hmacSha256Hex creds (mkTimestamp now) method resource
          body).CB_ACCESS_KEY = creds.key :=
  fun _ _ _ _ _ _ => ⟨rfl, rfl, rfl⟩

/-- C9: every order submitted by `create_order` is a limit GTC non-post-only
order: the POST body has exactly the shape `{client_order_id, side,
product_id, order_configuration: {limit_limit_gtc: {post_only, limit_price,
base_size}}}` with `post_only = false`, the adjusted price, the rounded
base quantity, the enum string of the side, the pair identifier and the
freshly generated client order id; the worked example produces exactly
that body with price 49900 and size 0.0002004. -/
theorem claim_C9_order_body_shape :
    (∀ (net : Oracle) (cid : String) (side : Side) (pair : Pair) (quote_size : ℚ)
       (s1 s2 : ℕ) (items : List ProductEntry) (p : ProductInfo),
       net productsRequest = ⟨s1, .products items⟩ → s1 ≠ UNAUTHORIZED →
       pair.value ∈ items.map ProductEntry.product_id →
       net (productRequest pair) = ⟨s2, .product p⟩ → s2 ≠ UNAUTHORIZED →
       p.quote_min_size ≤ quote_size → quote_size ≤ p.quote_max_size →
       0 < p.quote_increment → 0 < p.base_increment →
       p.base_min_size ≤ base_size_rounded side p quote_size →
       base_size_rounded side p quote_size ≤ p.base_max_size →
       ∃ o : Option Payload,
         create_order net cid side pair quote_size =
           ([productsRequest, productRequest pair,
             orderRequest
               { client_order_id := cid
                 side := side.value
                 product_id := pair.value
                 order_configuration :=
                   ⟨⟨false, price_adjusted side p, base_size_rounded side p quote_size⟩⟩ }],
            .ok o)) ∧
    (∀ side : Side, side.value = "BUY" ∨ side.value = "SELL") ∧
    create_order testOracle "cid" Side.BUY Pair.BTC_USD 10
      = ([productsRequest, productRequest Pair.BTC_USD,
          orderRequest ⟨"cid", "BUY", "BTC-USD", ⟨⟨false, 49900, 501 / 2500000⟩⟩⟩],
         .ok (some .generic)) := by
  refine ⟨?_, ?_, create_order_test_eq⟩
  · intro net cid side pair quote_size s1 s2 items p h1 hs1 hmem h2 hs2 hq1 hq2 hqi hbi hb1 hb2
    exact ⟨_, create_order_success net cid side pair quote_size s1 s2 items p
      h1 hs1 hmem h2 hs2 hq1 hq2 hqi hbi hb1 hb2⟩
  · intro side
    cases side
    · exact Or.inl rfl
    · exact Or.inr rfl

/-- C9 witness: the worked-example submission against `testOracle`. -/
theorem claim_C9_witness :
    ∃ o : Option Payload,
      create_order testOracle "cid" Side.BUY Pair.BTC_USD 10 =
        ([productsRequest, productRequest Pair.BTC_USD,
          orderRequest
            { client_order_id := "cid"
              side := Side.BUY.value
              product_id := Pair.BTC_USD.value
              order_configuration :=
                ⟨⟨false, price_adjusted Side.BUY testProduct,
                  base_size_rounded Side.BUY testProduct 10⟩⟩ }],
         .ok o) :=
  claim_C9_order_body_shape.1 testOracle "cid" Side.BUY Pair.BTC_USD 10 200 200
    [⟨"BTC-USD"⟩] testProduct testOracle_products (by decide) (by simp [Pair.value])
    testOracle_product (by decide) (by norm_num [testProduct]) (by norm_num [testProduct])
    (by norm_num [testProduct]) (by norm_num [testProduct])
    (by rw [base_size_test10]; norm_num [testProduct])
    (by rw [base_size_test10]; norm_num [testProduct])

/-- C10: a 401 on the product-list request makes `list_products` subscript
the `None` from `_request`, so `create_order` stops with a `TypeError`
after one request; a 401 on the product-detail request likewise raises
`TypeError` when the `None` product is subscripted, after the two GETs;
only a 401 on the order submission itself surfaces the `None` unauthorized
sentinel as `create_order`'s return value. -/
theorem claim_C10_none_propagation :
    (∀ (net : Oracle) (cid : String) (side : Side) (pair : Pair) (quote_size : ℚ),
       (net productsRequest).status = UNAUTHORIZED →
       create_order net cid side pair quote_size = ([productsRequest], .error .typeError)) ∧
    (∀ (net : Oracle) (cid : String) (side : Side) (pair : Pair) (quote_size : ℚ)
       (s1 : ℕ) (items : List ProductEntry),
       net productsRequest = ⟨s1, .products items⟩ → s1 ≠ UNAUTHORIZED →
       pair.value ∈ items.map ProductEntry.product_id →
       (net (productRequest pair)).status = UNAUTHORIZED →
       create_order net cid side pair quote_size
         = ([productsRequest, productRequest pair], .error .typeError)) ∧
    (∀ (net : Oracle) (cid : String) (side : Side) (pair : Pair) (quote_size : ℚ)
       (s1 s2 : ℕ) (items : List ProductEntry) (p : ProductInfo),
       net productsRequest = ⟨s1, .products items⟩ → s1 ≠ UNAUTHORIZED →
       pair.value ∈ items.map ProductEntry.product_id →
       net (productRequest pair) = ⟨s2, .product p⟩ → s2 ≠ UNAUTHORIZED →
       p.quote_min_size ≤ quote_size → quote_size ≤ p.quote_max_size →
       0 < p.quote_increment → 0 < p.base_increment →
       p.base_min_size ≤ base_size_rounded side p quote_size →
       base_size_rounded side p quote_size ≤ p.base_max_size →
       (net (orderRequest (orderBody cid side pair p quote_size))).status = UNAUTHORIZED →
       create_order net cid side pair quote_size
         = ([productsRequest, productRequest pair,
             orderRequest (orderBody cid side pair p quote_size)], .ok none)) := by
  refine ⟨?_, ?_, ?_⟩
  · intro net cid side pair quote_size h
    exact create_order_products_401 net cid side pair quote_size h
  · intro net cid side pair quote_size s1 items h1 hs1 hmem h2
    exact create_order_product_401 net cid side pair quote_size s1 items h1 hs1 hmem h2
  · intro net cid side pair quote_size s1 s2 items p h1 hs1 hmem h2 hs2 hq1 hq2 hqi hbi
      hb1 hb2 h401
    rw [create_order_success net cid side pair quote_size s1 s2 items p
      h1 hs1 hmem h2 hs2 hq1 hq2 hqi hbi hb1 hb2, if_pos h401]

/-- C10 witness: against the all-401 exchange, `create_order` raises a
`TypeError` after the product-list request. -/
theorem claim_C10_witness :
    create_order unauthorizedOracle "cid" Side.BUY Pair.BTC_USD 10
      = ([productsRequest], .error .typeError) :=
  claim_C10_none_propagation.1 unauthorizedOracle "cid" Side.BUY Pair.BTC_USD 10 rfl


end DCA
